import Mathlib

/-!
Shallow embedding of `src/tardis/plasma/plasma_properties.py`.

Python objects are modelled as Lean structures; mutation is modelled by
explicit state passing (a method that mutates `self` returns the new state);
a raised exception is modelled as an explicit error component of the result.
NumPy vectors are lists of reals, pandas DataFrames are a structure holding a
row index, a column list, a row-major data matrix and a dtype tag.
-/

/-- Model of `BasePlasmaProperty`: the generic node of the dependency graph.
The shared context (`plasma_parent`) is a total map from attribute names to
values of the value universe `V`; `value` is `none` until first assigned
(Python initialises it lazily / in subclasses). -/
structure BasePlasmaProperty (V : Type) where
  plasma_parent : String → V
  inputs : List String
  calculate : List V → V
  value : Option V
  name : String
  type_str : String
  latex_str : String

/-- Model of `BasePlasmaProperty.update`: resolve each name of `inputs`
against `plasma_parent`, pass the resolved values positionally to
`calculate`, store the result in `value`. The Python method returns `None`;
here the mutated object is returned instead. -/
def BasePlasmaProperty.update {V : Type} (self : BasePlasmaProperty V) :
    BasePlasmaProperty V :=
  let args := self.inputs.map (fun item => self.plasma_parent item)
  { self with value := some (self.calculate args) }

/-- C1: for every concrete node and every state of the shared context,
`update` resolves each name in `inputs` against `plasma_parent`, passes the
resolved values positionally to `calculate`, and stores the returned result
in `value`; no other attribute of the node is mutated. -/
theorem update_resolves_inputs_and_stores_value {V : Type}
    (self : BasePlasmaProperty V) :
    self.update.value
        = some (self.calculate (self.inputs.map (fun item => self.plasma_parent item)))
      ∧ self.update.plasma_parent = self.plasma_parent
      ∧ self.update.inputs = self.inputs
      ∧ self.update.calculate = self.calculate
      ∧ self.update.name = self.name
      ∧ self.update.type_str = self.type_str
      ∧ self.update.latex_str = self.latex_str :=
  ⟨rfl, rfl, rfl, rfl, rfl, rfl, rfl⟩

/-- Model of the atomic-data source object: per name, a capability flag
(Python attribute `has_<name>`) and the named dataset itself. -/
structure AtomicData (D : Type) where
  has : String → Bool
  attr : String → D

/-- Modelled from the spec: the class `tardis.plasma.exceptions.IncompleteAtomicData`
is imported by the source but its module is not under src. The spec describes it
as an incomplete-atomic-data error carrying the missing node name, so the model
represents the raised exception by that name. -/
def IncompleteAtomicData (name : String) : String := name

/-- Result of one call to the model of `BaseAtomicDataProperty.calculate`:
`err` is the raised exception if any, `value` is `self.value` after the call,
`ret` is the Python return value of the call (note the source has no `return`
statement on the load branch, so that branch returns `None`), and `reads`
counts how many times the dataset attribute `<name>` of the source was read. -/
structure ADCalcResult (D : Type) where
  err : Option String
  value : Option D
  ret : Option D
  reads : Nat

/-- Model of `BaseAtomicDataProperty.calculate`: if `self.value` is already
set, return it; otherwise consult the capability flag, raising
`IncompleteAtomicData` when it is false, and otherwise assigning the dataset
to `self.value` — and then falling off the end of the function, i.e.
returning `None`. -/
def BaseAtomicDataProperty.calculate {D : Type} (name : String)
    (value : Option D) (atomic_data : AtomicData D) : ADCalcResult D :=
  match value with
  | some v => ⟨none, some v, some v, 0⟩
  | none =>
    if atomic_data.has name = false then
      ⟨some (IncompleteAtomicData name), none, none, 0⟩
    else
      ⟨none, some (atomic_data.attr name), none, 1⟩

/-- Result of one call to the model of `update` on a `BaseAtomicDataProperty`
node: raised exception if any, the value slot of the node after the call, and
the number of dataset reads performed. -/
structure ADUpdateResult (D : Type) where
  err : Option String
  value : Option D
  reads : Nat

/-- Model of the inherited `update` as executed on a `BaseAtomicDataProperty`
node: `args = [plasma_parent.atomic_data]`, then
`self.value = self.calculate(*args)`. If `calculate` raises, the assignment
never happens and `self.value` keeps the value it had when the exception was
raised; otherwise the return value of `calculate` overwrites `self.value`
(including any assignment `calculate` made internally). -/
def BaseAtomicDataProperty.update {D : Type} (name : String)
    (value : Option D) (atomic_data : AtomicData D) : ADUpdateResult D :=
  let c := BaseAtomicDataProperty.calculate name value atomic_data
  match c.err with
  | some e => ⟨some e, value, c.reads⟩
  | none => ⟨none, c.ret, c.reads⟩

/-- Two successive calls of `update` on the same node against the same
source, accumulating dataset reads; the second call starts from the value
slot the first call left behind. -/
def BaseAtomicDataProperty.update2 {D : Type} (name : String)
    (value : Option D) (atomic_data : AtomicData D) : ADUpdateResult D :=
  let r1 := BaseAtomicDataProperty.update name value atomic_data
  match r1.err with
  | some e => ⟨some e, r1.value, r1.reads⟩
  | none =>
    let r2 := BaseAtomicDataProperty.update name r1.value atomic_data
    ⟨r2.err, r2.value, r1.reads + r2.reads⟩

/-- C2 (code evaluation at the failing input): a fresh `AtomicLevels`-style
node (`name = "levels"`, `value = None`) updated once against a source whose
capability flag is true and whose `levels` dataset is `42` ends the call with
`value = None` — not the loaded dataset. The load branch of `calculate`
assigns `self.value` but returns `None`, and `update` then overwrites
`self.value` with that `None`. -/
theorem atomic_update_discards_loaded_value :
    BaseAtomicDataProperty.update "levels" (none : Option Nat)
        ⟨fun _ => true, fun _ => 42⟩
      = ⟨none, none, 1⟩ := rfl

/-- C3 (code evaluation at the failing input): two `update` calls on the same
fresh node against the same capable source read the dataset attribute twice
(not at most once): each call finds `value = None` again, because the previous
call reset it, so the memoisation guard never fires through `update`. -/
theorem atomic_two_updates_read_source_twice :
    BaseAtomicDataProperty.update2 "levels" (none : Option Nat)
        ⟨fun _ => true, fun _ => 42⟩
      = ⟨none, none, 2⟩ := rfl

/-- C4: for every memoized-source node in its initial state whose source
reports the capability flag false, `update` fails with an
incomplete-atomic-data error carrying exactly the node name, the value slot
is left in the initial undefined state, and the dataset is never read. -/
theorem atomic_update_missing_data_fails {D : Type} (name : String)
    (atomic_data : AtomicData D) (h : atomic_data.has name = false) :
    BaseAtomicDataProperty.update name (none : Option D) atomic_data
      = ⟨some (IncompleteAtomicData name), none, 0⟩ := by
  unfold BaseAtomicDataProperty.update BaseAtomicDataProperty.calculate
  simp [h]

/-- Witness for C4 at a concrete source with every capability flag false. -/
theorem atomic_update_missing_data_fails_witness :
    (⟨fun _ => false, fun _ => (0 : Nat)⟩ : AtomicData Nat).has "lines" = false
      ∧ BaseAtomicDataProperty.update "lines" (none : Option Nat)
            ⟨fun _ => false, fun _ => (0 : Nat)⟩
          = ⟨some (IncompleteAtomicData "lines"), none, 0⟩ :=
  ⟨rfl, atomic_update_missing_data_fails "lines" ⟨fun _ => false, fun _ => 0⟩ rfl⟩

noncomputable section

/-- Value of `astropy.constants.const.k_B.cgs.value`, the Boltzmann constant
in CGS units (erg per kelvin), snapshotted by the `BetaRadiation` constructor. -/
def k_B_cgs_value : ℝ := 1.380649e-16

/-- Model of the `BetaRadiation` node: the constant snapshotted at
construction time, the current value of the `t_rad` attribute of the shared
context, and the value slot. -/
structure BetaRadiation where
  k_B_cgs : ℝ
  plasma_parent_t_rad : List ℝ
  value : Option (List ℝ)

/-- Model of `BetaRadiation.__init__`: snapshot the CGS Boltzmann constant
from the constants provider; the value slot starts unset. -/
def BetaRadiation.mk' (t_rad : List ℝ) : BetaRadiation :=
  ⟨k_B_cgs_value, t_rad, none⟩

/-- Model of `BetaRadiation.calculate`: element-wise `1 / (k_B_cgs * t_rad)`. -/
def BetaRadiation.calculate (self : BetaRadiation) (t_rad : List ℝ) : List ℝ :=
  t_rad.map (fun t => 1 / (self.k_B_cgs * t))

/-- Model of the inherited `update` as executed on a `BetaRadiation` node:
resolve `t_rad` from the context and store `calculate(t_rad)` in `value`. -/
def BetaRadiation.update (self : BetaRadiation) : BetaRadiation :=
  { self with value := some (self.calculate self.plasma_parent_t_rad) }

/-- Helper: the element-wise reciprocal map with a nonzero factor is
injective on vectors with nonzero entries. -/
theorem recip_map_injOn (k : ℝ) (hk : k ≠ 0) :
    ∀ (T1 T2 : List ℝ), (∀ x ∈ T1, x ≠ 0) → (∀ x ∈ T2, x ≠ 0) →
      T1.map (fun t => 1 / (k * t)) = T2.map (fun t => 1 / (k * t)) → T1 = T2 := by
  intro T1
  induction T1 with
  | nil =>
    intro T2 _ _ h
    cases T2 with
    | nil => rfl
    | cons b bs => simp at h
  | cons a as ih =>
    intro T2 h1 h2 h
    cases T2 with
    | nil => simp at h
    | cons b bs =>
      simp only [List.map_cons, List.cons.injEq] at h
      have ha : a ≠ 0 := h1 a (List.mem_cons_self a as)
      have hb : b ≠ 0 := h2 b (List.mem_cons_self b bs)
      have hka : k * a ≠ 0 := mul_ne_zero hk ha
      have hkb : k * b ≠ 0 := mul_ne_zero hk hb
      have hab : a = b := by
        have := (div_eq_div_iff hka hkb).mp h.1
        have hkk : k * b = k * a := by linarith
        exact (mul_left_cancel₀ hk hkk.symm)
      have hrest : as = bs :=
        ih bs (fun x hx => h1 x (List.mem_cons_of_mem a hx))
          (fun x hx => h2 x (List.mem_cons_of_mem b hx)) h.2
      rw [hab, hrest]

/-- C6: `BetaRadiation.calculate` returns, element-wise, the reciprocal of
(the construction-time CGS Boltzmann constant times `t_rad`); for vectors of
nonzero temperatures, distinct inputs give distinct outputs, and `update`
always stores the value computed from the current `t_rad` of the context,
regardless of any previously stored value (no caching). -/
theorem beta_radiation_recompute_spec (b : BetaRadiation)
    (hb : b.k_B_cgs = k_B_cgs_value) (T1 T2 : List ℝ)
    (h1 : ∀ x ∈ T1, x ≠ 0) (h2 : ∀ x ∈ T2, x ≠ 0) (hne : T1 ≠ T2) :
    b.calculate T1 = T1.map (fun t => 1 / (k_B_cgs_value * t))
      ∧ b.calculate T1 ≠ b.calculate T2
      ∧ b.update.value = some (b.calculate b.plasma_parent_t_rad) := by
  have hk : k_B_cgs_value ≠ 0 := by norm_num [k_B_cgs_value]
  refine ⟨by rw [BetaRadiation.calculate, hb], ?_, rfl⟩
  intro hEq
  rw [BetaRadiation.calculate, BetaRadiation.calculate, hb] at hEq
  exact hne (recip_map_injOn k_B_cgs_value hk T1 T2 h1 h2 hEq)

/-- Witness for C6 at concrete temperature vectors. -/
theorem beta_radiation_recompute_spec_witness :
    (BetaRadiation.mk' [5]).k_B_cgs = k_B_cgs_value
      ∧ ((BetaRadiation.mk' [5]).calculate [(5 : ℝ)]
            = [(5 : ℝ)].map (fun t => 1 / (k_B_cgs_value * t))
          ∧ (BetaRadiation.mk' [5]).calculate [(5 : ℝ)]
              ≠ (BetaRadiation.mk' [5]).calculate [(7 : ℝ)]
          ∧ (BetaRadiation.mk' [5]).update.value
              = some ((BetaRadiation.mk' [5]).calculate
                  (BetaRadiation.mk' [5]).plasma_parent_t_rad)) :=
  ⟨rfl, beta_radiation_recompute_spec (BetaRadiation.mk' [5]) rfl [5] [7]
    (by norm_num) (by norm_num) (by norm_num)⟩

/-- C10: `BetaRadiation.calculate` is an unguarded element-wise division: it
is total (it returns a vector of the same length for every input, with no
error branch, even when an entry is zero), and whenever every entry of
`t_rad` is nonzero each output entry is a genuine reciprocal of
`k_B_cgs * t_rad` at that position. -/
theorem beta_radiation_unguarded_division (b : BetaRadiation)
    (hb : b.k_B_cgs = k_B_cgs_value) (t_rad : List ℝ) :
    (b.calculate t_rad).length = t_rad.length
      ∧ ((∀ x ∈ t_rad, x ≠ 0) → ∀ i, i < t_rad.length →
          (b.calculate t_rad).getD i 0 * (b.k_B_cgs * t_rad.getD i 0) = 1) := by
  constructor
  · simp [BetaRadiation.calculate]
  · intro hnz i hi
    have hlen : i < (t_rad.map (fun t => 1 / (b.k_B_cgs * t))).length := by
      simpa using hi
    have hmem : t_rad[i] ∈ t_rad := List.getElem_mem hi
    have hxi : t_rad[i] ≠ 0 := hnz _ hmem
    have hgd : t_rad.getD i 0 ≠ 0 := by
      rw [List.getD_eq_getElem t_rad 0 hi]; exact hxi
    have hk : b.k_B_cgs ≠ 0 := by rw [hb]; norm_num [k_B_cgs_value]
    have hmap : (t_rad.map (fun t => 1 / (b.k_B_cgs * t))).getD i 0
        = 1 / (b.k_B_cgs * t_rad.getD i 0) := by
      rw [List.getD_eq_getElem _ 0 hlen, List.getElem_map, List.getD_eq_getElem t_rad 0 hi]
    rw [BetaRadiation.calculate, hmap]
    exact one_div_mul_cancel (mul_ne_zero hk hgd)

/-- Witness for C10 at a concrete node and temperature vector that even
contains a zero entry (showing totality). -/
theorem beta_radiation_unguarded_division_witness :
    ((BetaRadiation.mk' []).calculate [(300 : ℝ), 0]).length = [(300 : ℝ), 0].length :=
  (beta_radiation_unguarded_division (BetaRadiation.mk' []) rfl [300, 0]).1

/-- One row of the `levels` DataFrame: its composite index key
(atomic_number, ion_number, level_number) and its columns `g`, `energy`,
`metastable`. -/
structure LevelRow where
  atomic_number : ℕ
  ion_number : ℕ
  level_number : ℕ
  g : ℝ
  energy : ℝ
  metastable : Bool

/-- The `levels` table: a list of rows in index order. -/
abbrev LevelsTable := List LevelRow

/-- Composite row key of a level row. -/
def LevelRow.key (r : LevelRow) : ℕ × ℕ × ℕ :=
  (r.atomic_number, r.ion_number, r.level_number)

/-- Species key (the first two index components) of a level row. -/
def LevelRow.species (r : LevelRow) : ℕ × ℕ :=
  (r.atomic_number, r.ion_number)

/-- Default row used only to give `List.getD` a fallback in statements. -/
def LevelRow.dflt : LevelRow := ⟨0, 0, 0, 0, 0, false⟩

/-- Model of `numpy.outer` on 1-D vectors: the matrix of pairwise products. -/
def npOuter (a b : List ℝ) : List (List ℝ) :=
  a.map (fun x => b.map (fun y => x * y))

/-- Model of element-wise `numpy.exp` on a matrix. -/
def npExp (m : List (List ℝ)) : List (List ℝ) :=
  m.map (fun row => row.map Real.exp)

/-- Model of a pandas DataFrame with real entries: a row index of keys `κ`,
integer column labels, the row-major data matrix, and the dtype tag passed to
the constructor. -/
structure DataFrame (κ : Type) where
  index : List κ
  columns : List ℕ
  data : List (List ℝ)
  dtype : String

/-- Model of `LevelBoltzmannFactor.calculate`:
`exponential = np.exp(np.outer(levels.energy.values, -beta_rad))`, then the
row-wise scaling `levels.g.values[np.newaxis].T * exponential`, wrapped into
a DataFrame with `index=levels.index`,
`columns=np.arange(len(beta_rad))`, `dtype=np.float64`. -/
def LevelBoltzmannFactor.calculate (levels : LevelsTable) (beta_rad : List ℝ) :
    DataFrame (ℕ × ℕ × ℕ) :=
  let exponential := npExp (npOuter (levels.map LevelRow.energy) (beta_rad.map (fun b => -b)))
  let level_boltzmann_factor_array :=
    List.zipWith (fun g row => row.map (fun x => g * x)) (levels.map LevelRow.g) exponential
  ⟨levels.map LevelRow.key, List.range beta_rad.length,
    level_boltzmann_factor_array, "float64"⟩

/-- C5: for every levels table and beta_rad vector,
`LevelBoltzmannFactor.calculate` returns a table whose entry at row `k`,
column `c` is `g_k * exp(-energy_k * beta_rad_c)`; its row index equals the
levels table row index exactly, its columns are labeled `0..len(beta_rad)-1`,
and its entries carry the double-precision float dtype. -/
theorem level_boltzmann_factor_entry_spec (levels : LevelsTable)
    (beta_rad : List ℝ) (k c : ℕ) (hk : k < levels.length)
    (hc : c < beta_rad.length) :
    (LevelBoltzmannFactor.calculate levels beta_rad).index = levels.map LevelRow.key
      ∧ (LevelBoltzmannFactor.calculate levels beta_rad).columns
          = List.range beta_rad.length
      ∧ (LevelBoltzmannFactor.calculate levels beta_rad).dtype = "float64"
      ∧ (((LevelBoltzmannFactor.calculate levels beta_rad).data.getD k []).getD c 0)
          = (levels.getD k LevelRow.dflt).g
              * Real.exp (-(levels.getD k LevelRow.dflt).energy * beta_rad.getD c 0) := by
  refine ⟨rfl, rfl, rfl, ?_⟩
  have harr : k < (List.zipWith (fun g row => row.map (fun x => g * x))
      (levels.map LevelRow.g)
      (npExp (npOuter (levels.map LevelRow.energy)
        (beta_rad.map (fun b => -b))))).length := by
    rw [List.length_zipWith]
    refine lt_min (by simpa using hk) ?_
    simpa [npExp, npOuter] using hk
  have hmapD : ∀ (f : ℝ → ℝ), (List.map f beta_rad).getD c 0 = f beta_rad[c] := by
    intro f
    rw [List.getD_eq_getElem _ 0 (by simpa using hc), List.getElem_map]
  simp only [LevelBoltzmannFactor.calculate]
  rw [List.getD_eq_getElem _ [] harr, List.getElem_zipWith]
  simp only [npExp, npOuter, List.getElem_map, List.map_map, Function.comp]
  rw [hmapD, List.getD_eq_getElem levels LevelRow.dflt hk,
    List.getD_eq_getElem beta_rad 0 hc]
  simp only [Function.comp_apply, mul_neg, neg_mul]

/-- Witness for C5 at a concrete one-level table and one-cell vector. -/
theorem level_boltzmann_factor_entry_spec_witness :
    0 < ([⟨1, 0, 0, 1, 0, false⟩] : LevelsTable).length
      ∧ 0 < [(1 : ℝ)].length
      ∧ ((LevelBoltzmannFactor.calculate [⟨1, 0, 0, 1, 0, false⟩] [(1 : ℝ)]).index
            = ([⟨1, 0, 0, 1, 0, false⟩] : LevelsTable).map LevelRow.key
          ∧ (LevelBoltzmannFactor.calculate [⟨1, 0, 0, 1, 0, false⟩] [(1 : ℝ)]).columns
              = List.range [(1 : ℝ)].length
          ∧ (LevelBoltzmannFactor.calculate [⟨1, 0, 0, 1, 0, false⟩]
                [(1 : ℝ)]).dtype = "float64"
          ∧ (((LevelBoltzmannFactor.calculate [⟨1, 0, 0, 1, 0, false⟩]
                  [(1 : ℝ)]).data.getD 0 []).getD 0 0)
              = (([⟨1, 0, 0, 1, 0, false⟩] : LevelsTable).getD 0 LevelRow.dflt).g
                  * Real.exp
                      (-(([⟨1, 0, 0, 1, 0, false⟩] : LevelsTable).getD 0
                            LevelRow.dflt).energy
                        * [(1 : ℝ)].getD 0 0)) :=
  ⟨by norm_num, by norm_num,
    level_boltzmann_factor_entry_spec [⟨1, 0, 0, 1, 0, false⟩] [(1 : ℝ)] 0 0
      (by norm_num) (by norm_num)⟩

/-- The NLTE configuration object: the list of species keys to override. -/
structure NLTEConfig where
  species : List (ℕ × ℕ)

/-- Attributes of a `PartitionFunction` node read by its `calculate` method
from `self` rather than from the method arguments: `beta_rads`, `t_rads`,
`ws`, `atom_data.levels`, `nlte_config` and `level_populations`. -/
structure PartitionFunctionState where
  beta_rads : List ℝ
  t_rads : List ℝ
  ws : List ℝ
  atom_data_levels : LevelsTable
  nlte_config : Option NLTEConfig
  level_populations : List ((ℕ × ℕ × ℕ) × List ℝ)

/-- A grouped per-species table: association list from species key
(atomic_number, ion_number) to the per-cell vector. -/
abbrev PFTable := List ((ℕ × ℕ) × List ℝ)

/-- Lookup of a species row in a grouped table (first match). -/
def lookupSpecies (t : PFTable) (s : ℕ × ℕ) : Option (List ℝ) :=
  match t with
  | [] => none
  | (k, v) :: rest => if k = s then some v else lookupSpecies rest s

/-- Element-wise sum of two per-cell vectors. -/
def addVec (a b : List ℝ) : List ℝ := List.zipWith (· + ·) a b

/-- Species keys in order of first occurrence (the grouping keys of a
pandas groupby). -/
def firstOccKeys (l : List (ℕ × ℕ)) : List (ℕ × ℕ) :=
  l.foldl (fun acc k => if k ∈ acc then acc else acc ++ [k]) []

/-- Sum of the per-cell vectors of all rows carrying a given species key. -/
def sumVecsFor (rows : List ((ℕ × ℕ) × List ℝ)) (s : ℕ × ℕ) (ncols : ℕ) :
    List ℝ :=
  rows.foldl (fun acc p => if p.1 = s then addVec acc p.2 else acc)
    (List.replicate ncols 0)

/-- Model of `groupby(level=[atomic_number, ion_number]).sum()` on a
per-level table whose rows are tagged with their species key. -/
def groupbySumSpecies (rows : List ((ℕ × ℕ) × List ℝ)) (ncols : ℕ) : PFTable :=
  (firstOccKeys (rows.map Prod.fst)).map (fun s => (s, sumVecsFor rows s ncols))

/-- Model of `ws * df`: each row of the grouped table is scaled cell-wise by
the per-cell dilution-factor vector. -/
def scaleByWs (ws : List ℝ) (t : PFTable) : PFTable :=
  t.map (fun p => (p.1, List.zipWith (· * ·) ws p.2))

/-- Model of the line
`partition_functions.ix[partition_functions_non_meta.index] += partition_functions_non_meta`:
every species row of `pf` whose key also appears in `other` receives the
matching vector added cell-wise; species keys of `other` that are absent from
`pf` are enlarged into `pf` (union of the two indices, the missing side
contributing zero, the reading the spec design notes give for this line). -/
def ixAddAll (pf other : PFTable) : PFTable :=
  (pf.map (fun p =>
      match lookupSpecies other p.1 with
      | some v => (p.1, addVec p.2 v)
      | none => p))
    ++ other.filter (fun p => (lookupSpecies pf p.1).isNone)

/-- Model of `PartitionFunction.calculate`. The weighted per-level table is
recomputed from the `levels` argument `g`/`energy` columns and
`self.beta_rads`, and wrapped into a DataFrame indexed by
`self.atom_data.levels.index` with `len(self.t_rads)` columns; the
metastable/non-metastable split uses `self.atom_data.levels.metastable`; the
non-metastable grouped sum is scaled by `self.ws` and added into the
metastable grouped sum at the union of indices. The NLTE branch condition
`self.nlte_config is not None and self.nlte_config.species != [] and not initialize_nlte`
references the bare name `initialize_nlte`, which is defined nowhere in the
module, so reaching the third conjunct raises `NameError`; the declared
argument `level_boltzmann_factor` is never read. -/
def PartitionFunction.calculate (self : PartitionFunctionState)
    (levels : LevelsTable) (level_boltzmann_factor : DataFrame (ℕ × ℕ × ℕ)) :
    Except String (DataFrame (ℕ × ℕ × ℕ) × PFTable) :=
  let level_population_proportional_array :=
    List.zipWith (fun g row => row.map (fun x => g * x))
      (levels.map LevelRow.g)
      (npExp (npOuter (levels.map LevelRow.energy)
        (self.beta_rads.map (fun b => -b))))
  let level_population_proportionalities : DataFrame (ℕ × ℕ × ℕ) :=
    ⟨self.atom_data_levels.map LevelRow.key, List.range self.t_rads.length,
      level_population_proportional_array, "float64"⟩
  let taggedRows :=
    List.zipWith (fun (r : LevelRow) row => (r.species, r.metastable, row))
      self.atom_data_levels level_population_proportional_array
  let metaRows := (taggedRows.filter (fun p => p.2.1)).map (fun p => (p.1, p.2.2))
  let nonMetaRows := (taggedRows.filter (fun p => !p.2.1)).map (fun p => (p.1, p.2.2))
  let ncols := self.beta_rads.length
  let partition_functions := groupbySumSpecies metaRows ncols
  let partition_functions_non_meta :=
    scaleByWs self.ws (groupbySumSpecies nonMetaRows ncols)
  let combined := ixAddAll partition_functions partition_functions_non_meta
  match self.nlte_config with
  | some cfg =>
    if cfg.species ≠ [] then
      Except.error "NameError: name initialize_nlte is not defined"
    else Except.ok (level_population_proportionalities, combined)
  | none => Except.ok (level_population_proportionalities, combined)

/-- The two-level, one-species levels table of the concrete aggregation
scenario: level 0 with g = 1, energy = 0, level 1 with g = 2, energy = 1,
both non-metastable. -/
def scenarioLevels : LevelsTable :=
  [⟨1, 0, 0, 1, 0, false⟩, ⟨1, 0, 1, 2, 1, false⟩]

/-- Node state of the scenario: `beta_rads = [1.0]`, one cell,
`ws = [0.5]`, no NLTE configuration. -/
def scenarioState : PartitionFunctionState :=
  ⟨[1], [1], [0.5], scenarioLevels, none, []⟩

/-- An arbitrary value for the (unused) `level_boltzmann_factor` argument. -/
def scenarioLbf : DataFrame (ℕ × ℕ × ℕ) := ⟨[], [], [], ""⟩

/-- C9: the declared input `level_boltzmann_factor` is never read by
`PartitionFunction.calculate`: for any two values of that argument, with the
node state and the `levels` argument held equal, the result is identical. -/
theorem partition_function_ignores_level_boltzmann_factor
    (self : PartitionFunctionState) (levels : LevelsTable)
    (lbf1 lbf2 : DataFrame (ℕ × ℕ × ℕ)) :
    PartitionFunction.calculate self levels lbf1
      = PartitionFunction.calculate self levels lbf2 := rfl

/-- C8 (code evaluation at the failing input): with a configured, non-empty
NLTE override set, `PartitionFunction.calculate` raises `NameError` — the
branch condition references the undefined bare name `initialize_nlte` — so
no partition-function entry is ever replaced. -/
theorem partition_function_nlte_branch_raises :
    PartitionFunction.calculate
        ⟨[1], [1], [0.5], scenarioLevels, some ⟨[(1, 0)]⟩, []⟩
        scenarioLevels scenarioLbf
      = Except.error "NameError: name initialize_nlte is not defined" := rfl

/-- C7: on the concrete scenario (two non-metastable levels of species
(1, 0) with g = 1, energy = 0 and g = 2, energy = 1, `beta_rad = [1.0]`,
`ws = [0.5]`), `calculate` succeeds; the weighted per-level table is
`[1 * exp 0; 2 * exp (-1)]`, within 1e-4 of `[1.0; 0.7358]`, and the final
partition-function entry of species (1, 0) — the scaled non-metastable sum,
the metastable side contributing zero — is within 1e-4 of 0.8679. -/
theorem partition_function_aggregation_scenario :
    PartitionFunction.calculate scenarioState scenarioLevels scenarioLbf
        = Except.ok
            (⟨[(1, 0, 0), (1, 0, 1)], [0],
                [[1 * Real.exp (0 * -1)], [2 * Real.exp (1 * -1)]], "float64"⟩,
              [((1, 0), [0.5 * (0 + 1 * Real.exp (0 * -1) + 2 * Real.exp (1 * -1))])])
      ∧ |1 * Real.exp (0 * -1) - 1| < 1e-4
      ∧ |2 * Real.exp (1 * -1) - 0.7358| < 1e-4
      ∧ |0.5 * (0 + 1 * Real.exp (0 * -1) + 2 * Real.exp (1 * -1)) - 0.8679| < 1e-4 := by
  have hgt := Real.exp_neg_one_gt_d9
  have hlt := Real.exp_neg_one_lt_d9
  refine ⟨rfl, ?_, ?_, ?_⟩
  · norm_num [Real.exp_zero]
  · simp only [one_mul]
    rw [abs_lt]
    constructor <;> nlinarith
  · simp only [zero_mul, one_mul, Real.exp_zero, zero_add]
    rw [abs_lt]
    constructor <;> nlinarith
